import Mathlib

/-
Verification of the deep_vision task-orchestration core.

Shallow embedding of the workflow-state engine of the repository:
  backend/core/state.py          (WorkflowState, TaskType, TaskStatus)
  backend/agents/base_agent.py   (BaseAgent.safe_process)
  backend/agents/task_analyzer.py(TaskAnalyzerAgent.process, SimpleTaskAnalyzer.analyze)
  backend/agents/image_worker.py (ImageWorkerAgent.process)
  backend/agents/quality_control.py (QualityControlAgent.process, _run_checks, _check_*)
  backend/agents/orchestrator.py (SimpleOrchestrator.run, ConditionalOrchestrator.run)
  backend/agents/edit_manager.py (ImageEditManager.edit_image)

Modelling conventions:
  - Python in-place mutation of the WorkflowState is explicit state passing;
    a `raise` inside an agent is a `StepOut` carrying both the state as
    mutated so far and the exception (`exn := some e`), since the mutated
    object survives the raise in Python.
  - External effects (file system, provider/model calls, the OpenAI call)
    are environment records of pure functions; an external call that may
    raise returns `Except Exn _`.
  - Python floats: every confidence constant in this code is an exact
    multiple of 0.01, so confidences are represented in hundredths (Nat);
    `progress` is written only with the integer literals 0/10/20/40/70/80/100
    and is represented as Nat.
  - Each agent step also records the list of values assigned to
    `state.progress`, in assignment order (`pwrites`), and the orchestrators
    record which agents they invoked (the list of agent names): this is pure
    instrumentation of observable mutations, used to state trace properties.
-/

namespace DeepVision

/-- Character-list prefix test (Python `str.startswith`, used to build `in`). -/
def prefixList : List Char → List Char → Bool
  | [], _ => true
  | _ :: _, [] => false
  | a :: as, b :: bs => a == b && prefixList as bs

/-- Character-list substring test: models Python's `needle in haystack`. -/
def subList (n : List Char) : List Char → Bool
  | [] => prefixList n []
  | c :: t => prefixList n (c :: t) || subList n t

/-- Decimal digit character. -/
def digitChar : Nat → Char
  | 0 => '0' | 1 => '1' | 2 => '2' | 3 => '3' | 4 => '4'
  | 5 => '5' | 6 => '6' | 7 => '7' | 8 => '8' | _ => '9'

/-- Fuelled decimal rendering of a natural number. -/
def natStrGo : Nat → Nat → List Char
  | 0, _ => []
  | fuel + 1, n => if n < 10 then [digitChar n] else natStrGo fuel (n / 10) ++ [digitChar (n % 10)]

/-- Decimal rendering of a natural number (Python's f-string interpolation of an int). -/
def natStr (n : Nat) : String := ⟨natStrGo (n + 1) n⟩

/-- Adjacent-pairs non-decreasing test for a list of progress values. -/
def sortedLE : List Nat → Bool
  | [] => true
  | [_] => true
  | a :: b :: t => decide (a ≤ b) && sortedLE (b :: t)

/-- backend/core/state.py `TaskType`. -/
inductive TaskType
  | deblur
  | inpaint
  | beauty_enhance
  | generate
  | unknown
deriving DecidableEq

/-- The `.value` string of a `TaskType` member. -/
def ttValue : TaskType → String
  | .deblur => "deblur"
  | .inpaint => "inpaint"
  | .beauty_enhance => "beauty_enhance"
  | .generate => "generate"
  | .unknown => "unknown"

/-- backend/core/state.py `TaskStatus`. -/
inductive TaskStatus
  | pending
  | analyzing
  | processing
  | quality_check
  | completed
  | failed
deriving DecidableEq

/-- A raised Python exception: its class name and its `str(e)` message. -/
structure Exn where
  ename : String
  msg : String
deriving DecidableEq

/-- One entry of `intermediate_results["errors"]`: the dicts appended there
carry an "agent" key, an "error" key, and (only in `safe_process`) a "type" key. -/
structure ErrEntry where
  agent : String
  error : String
  etype : Option String := none
deriving DecidableEq

/-- The `intermediate_results["analysis"]` dict. The except-branch of
`TaskAnalyzerAgent.process` writes no "suggested_params" key but does write an
"error" key, hence both are optional. Confidence in hundredths. -/
structure Analysis where
  confidence : Nat
  reasoning : String
  suggested_params : Option (List (String × String)) := none
  error : Option String := none
deriving DecidableEq

/-- One quality-check result dict: its "passed" flag and "message" string
(the "details" sub-dict is informational only and never read by the code). -/
structure CheckRes where
  passed : Bool
  message : String
deriving DecidableEq

/-- The checks dict built by `QualityControlAgent._run_checks`, as a typed
record: a key that was never inserted is `none`.  Field order is the dict
insertion order. -/
structure Checks where
  output_exists : CheckRes
  file_size : Option CheckRes := none
  image_format : Option CheckRes := none
  dimensions : Option CheckRes := none
  comparison : Option CheckRes := none
deriving DecidableEq

/-- `check["passed"]` for a dict entry that may be absent; an absent entry
does not take part in `all(...)`. -/
def passedOpt : Option CheckRes → Bool
  | none => true
  | some c => c.passed

/-- `all(check["passed"] for check in checks.values())`. -/
def Checks.allPassed (c : Checks) : Bool :=
  c.output_exists.passed && passedOpt c.file_size && passedOpt c.image_format
    && passedOpt c.dimensions && passedOpt c.comparison

/-- Contribution of one optional entry to the failed-name list. -/
def failedOptNames (nm : String) : Option CheckRes → List String
  | none => []
  | some c => if c.passed then [] else [nm]

/-- `[name for name, check in checks.items() if not check["passed"]]`,
in dict insertion order. -/
def Checks.failedNames (c : Checks) : List String :=
  (if c.output_exists.passed then [] else ["output_exists"])
    ++ failedOptNames "file_size" c.file_size
    ++ failedOptNames "image_format" c.image_format
    ++ failedOptNames "dimensions" c.dimensions
    ++ failedOptNames "comparison" c.comparison

/-- The `state.intermediate_results` dict, as a typed record of the string
keys the modelled code reads or writes ("errors", "analysis", "needs_review",
"retry_count", "quality_checks", "model_used", "task_params", "mask_path").
A key never inserted is `none`. -/
structure IRes where
  errors : Option (List ErrEntry) := none
  analysis : Option Analysis := none
  needs_review : Option Bool := none
  retry_count : Option Nat := none
  quality_checks : Option Checks := none
  model_used : Option String := none
  task_params : Option (List (String × String)) := none
  mask_path : Option String := none
deriving DecidableEq

/-- backend/core/state.py `WorkflowState`.  Fields never touched by the
modelled control flow (`created_at`, `parameters`, `processing_time`,
`model_used`, `quality_score`) are omitted. -/
structure WorkflowState where
  task_id : String
  user_request : String
  image_path : Option String := none
  prompt : Option String := none
  input_path : Option String := none
  output_path : Option String := none
  task_type : TaskType := TaskType.unknown
  current_agent : String := "coordinator"
  status : TaskStatus := TaskStatus.pending
  progress : Nat := 0
  intermediate_results : IRes := {}
  result_path : Option String := none
  error : Option String := none
  retry_count : Nat := 0
  max_retries : Nat := 3
deriving DecidableEq

/-- The error-append idiom used throughout the agents:
`if "errors" not in intermediate_results: intermediate_results["errors"] = []`
(or `if not intermediate_results.get("errors"): ... = []`) followed by
`intermediate_results["errors"].append(entry)`.  Both idioms yield the same
dict: the previous list (or `[]`) with `entry` appended. -/
def appendError (ir : IRes) (e : ErrEntry) : IRes :=
  { ir with errors := some (ir.errors.getD [] ++ [e]) }

/-- Result of one agent `process` call: the state as mutated so far, the
exception it propagated (if any), and the ordered list of values assigned to
`state.progress` during the call. -/
structure StepOut where
  state : WorkflowState
  exn : Option Exn := none
  pwrites : List Nat := []
deriving DecidableEq

/-- backend/agents/base_agent.py `BaseAgent.safe_process`: run `process`; if
it raised, set the (mutated) state FAILED and append an
`{agent, error, type}` record to `intermediate_results["errors"]`; never
re-raise.  `name` is the agent's `self.name`. -/
def BaseAgent.safe_process (name : String) (proc : WorkflowState → StepOut)
    (s : WorkflowState) : StepOut :=
  let r := proc s
  match r.exn with
  | none => r
  | some e =>
      { state := { r.state with
          status := TaskStatus.failed,
          intermediate_results := appendError r.state.intermediate_results
            { agent := name, error := e.msg, etype := some e.ename } },
        exn := none,
        pwrites := r.pwrites }

/-- The parsed JSON object returned by the OpenAI call in
`TaskAnalyzerAgent.process`; each key may be absent (`analysis.get`). -/
structure LLMAnalysis where
  task_type : Option String := none
  confidence : Option Nat := none
  reasoning : Option String := none
  suggested_params : Option (List (String × String)) := none

/-- Environment of `TaskAnalyzerAgent.process`: the outcome of the OpenAI
chat call plus JSON parsing (`Except` error when any of it raises). -/
structure AnalyzerEnv where
  llm : Except Exn LLMAnalysis

/-- `task_type_mapping.get(task_type_str, TaskType.DEBLUR)`. -/
def taskTypeMapping : String → TaskType
  | "deblur" => TaskType.deblur
  | "inpaint" => TaskType.inpaint
  | "beauty_enhance" => TaskType.beauty_enhance
  | "generate" => TaskType.generate
  | _ => TaskType.deblur

/-- backend/agents/task_analyzer.py `TaskAnalyzerAgent.process`.  Sets status
ANALYZING and progress 10, calls the LLM; on success maps the returned
task_type (default "deblur", confidence default 0.8) and sets progress 20;
on any exception falls back to DEBLUR with confidence 0.5 and records the
failure in the "analysis" dict — it never re-raises. -/
def TaskAnalyzerAgent.process (env : AnalyzerEnv) (s : WorkflowState) : StepOut :=
  let s1 := { s with status := TaskStatus.analyzing, progress := 10 }
  match env.llm with
  | Except.ok a =>
      let s2 := { s1 with
        task_type := taskTypeMapping (a.task_type.getD "deblur"),
        progress := 20,
        intermediate_results := { s1.intermediate_results with
          analysis := some
            { confidence := a.confidence.getD 80,
              reasoning := a.reasoning.getD "",
              suggested_params := some (a.suggested_params.getD []) } } }
      { state := s2, exn := none, pwrites := [10, 20] }
  | Except.error e =>
      let s2 := { s1 with
        task_type := TaskType.deblur,
        progress := 20,
        intermediate_results := { s1.intermediate_results with
          analysis := some
            { confidence := 50,
              reasoning := "Analysis failed, using default: " ++ e.msg,
              error := some e.msg } } }
      { state := s2, exn := none, pwrites := [10, 20] }

/-- Environment of `ImageWorkerAgent.process`: file existence plus the four
replicate-client calls, each returning the output path (possibly `None`) or
raising. -/
structure WorkerEnv where
  fileExists : String → Bool
  deblur_image : String → Except Exn (Option String)
  inpaint_image : String → Option String → Except Exn (Option String)
  enhance_beauty : String → Except Exn (Option String)
  generate_image : String → List (String × String) → Except Exn (Option String)

/-- The except-branch of `ImageWorkerAgent.process` (lines 79-88), through
which every raise inside its try-block passes: set FAILED, append an
`{agent, error}` record (no "type" key), and re-raise. -/
def workerRaise (st : WorkflowState) (e : Exn) (pw : List Nat) : StepOut :=
  { state := { st with
      status := TaskStatus.failed,
      intermediate_results := appendError st.intermediate_results
        { agent := "Image Worker", error := e.msg } },
    exn := some e,
    pwrites := pw }

/-- Shared tail of `ImageWorkerAgent.process`: after a model call returns
`out`, `if output_path and Path(output_path).exists()` set `output_path` and
progress 70, else raise FileNotFoundError. -/
def workerFinish (env : WorkerEnv) (s2 : WorkflowState)
    (res : Except Exn (Option String)) : StepOut :=
  match res with
  | Except.error e => workerRaise s2 e [40]
  | Except.ok out =>
      match out with
      | some o =>
          if env.fileExists o then
            { state := { s2 with output_path := some o, progress := 70 },
              exn := none, pwrites := [40, 70] }
          else workerRaise s2 ⟨"FileNotFoundError", "Output file was not created"⟩ [40]
      | none => workerRaise s2 ⟨"FileNotFoundError", "Output file was not created"⟩ [40]

/-- backend/agents/image_worker.py `ImageWorkerAgent.process`: set status
PROCESSING and progress 40; require an existing `input_path`; dispatch on
`task_type` to the replicate client (recording `model_used`/`task_params`);
on success set `output_path` and progress 70.  Every failure path appends an
error record and re-raises (the agent's own except-branch). -/
def ImageWorkerAgent.process (env : WorkerEnv) (s : WorkflowState) : StepOut :=
  let s1 := { s with status := TaskStatus.processing, progress := 40 }
  match s1.input_path with
  | none => workerRaise s1 ⟨"ValueError", "No input path provided"⟩ [40]
  | some ip =>
      if env.fileExists ip then
        match s1.task_type with
        | TaskType.deblur =>
            let s2 := { s1 with intermediate_results := { s1.intermediate_results with
              model_used := some "SwinIR", task_params := some [("scale", "2")] } }
            workerFinish env s2 (env.deblur_image ip)
        | TaskType.inpaint =>
            let mask := s1.intermediate_results.mask_path
            let s2 := { s1 with intermediate_results := { s1.intermediate_results with
              model_used := some "LaMa",
              task_params := some [("has_mask", if mask.isSome then "True" else "False")] } }
            workerFinish env s2 (env.inpaint_image ip mask)
        | TaskType.beauty_enhance =>
            let s2 := { s1 with intermediate_results := { s1.intermediate_results with
              model_used := some "GFPGAN",
              task_params := some [("version", "v1.4"), ("scale", "2")] } }
            workerFinish env s2 (env.enhance_beauty ip)
        | TaskType.generate =>
            let params := (s1.intermediate_results.analysis.bind Analysis.suggested_params).getD []
            let s2 := { s1 with intermediate_results := { s1.intermediate_results with
              model_used := some "Stable Diffusion XL",
              task_params := some (("prompt", s1.user_request) :: params) } }
            workerFinish env s2 (env.generate_image s1.user_request params)
        | TaskType.unknown =>
            workerRaise s1 ⟨"ValueError", "Unknown task type: TaskType.UNKNOWN"⟩ [40]
      else workerRaise s1 ⟨"FileNotFoundError", "Input file not found: " ++ ip⟩ [40]

/-- Decoded-image information exposed by `PIL.Image.open`. -/
structure ImgInfo where
  format : String
  mode : String
  width : Nat
  height : Nat
deriving DecidableEq

/-- Environment of `QualityControlAgent`: the file system and PIL.
`fileSize` models `Path.stat().st_size`, `openImage` models
`PIL.Image.open`, `readBytes` models `Path.read_bytes`; each may raise. -/
structure FsEnv where
  fileExists : String → Bool
  fileSize : String → Except Exn Nat
  openImage : String → Except Exn ImgInfo
  readBytes : String → Except Exn (List Nat)

namespace QualityControlAgent

/-- `self.min_file_size` (1 KB). -/
def min_file_size : Nat := 1000

/-- `self.min_dimension` (32 px). -/
def min_dimension : Nat := 32

/-- `_check_output_exists`. -/
def checkOutputExists (env : FsEnv) (s : WorkflowState) : CheckRes :=
  match s.output_path with
  | none => { passed := false, message := "No output path provided" }
  | some p =>
      if env.fileExists p then { passed := true, message := "Output file exists" }
      else { passed := false, message := "Output file not found" }

/-- `_check_file_size`. -/
def checkFileSize (env : FsEnv) (p : String) : CheckRes :=
  match env.fileSize p with
  | Except.ok n =>
      { passed := decide (min_file_size ≤ n), message := "File size: " ++ natStr n ++ " bytes" }
  | Except.error e =>
      { passed := false, message := "Failed to check file size: " ++ e.msg }

/-- `_check_image_format`. -/
def checkImageFormat (env : FsEnv) (p : String) : CheckRes :=
  match env.openImage p with
  | Except.ok i => { passed := true, message := "Valid " ++ i.format ++ " image" }
  | Except.error e => { passed := false, message := "Invalid image: " ++ e.msg }

/-- `_check_dimensions`. -/
def checkDimensions (env : FsEnv) (p : String) : CheckRes :=
  match env.openImage p with
  | Except.ok i =>
      { passed := decide (min_dimension ≤ i.width) && decide (min_dimension ≤ i.height),
        message := "Image size: " ++ natStr i.width ++ "x" ++ natStr i.height }
  | Except.error e =>
      { passed := false, message := "Failed to check dimensions: " ++ e.msg }

/-- `_check_comparison`: opens input then output, reads both byte contents;
passes iff dimensions match and the bytes differ; any exception makes the
check pass ("don't fail on comparison error"). -/
def checkComparison (env : FsEnv) (ip op : String) : CheckRes :=
  match env.openImage ip with
  | Except.error e => { passed := true, message := "Could not compare: " ++ e.msg }
  | Except.ok ii =>
      match env.openImage op with
      | Except.error e => { passed := true, message := "Could not compare: " ++ e.msg }
      | Except.ok oi =>
          match env.readBytes ip with
          | Except.error e => { passed := true, message := "Could not compare: " ++ e.msg }
          | Except.ok ib =>
              match env.readBytes op with
              | Except.error e => { passed := true, message := "Could not compare: " ++ e.msg }
              | Except.ok ob =>
                  { passed := (decide (ii.width = oi.width) && decide (ii.height = oi.height))
                      && decide (ib ≠ ob),
                    message := "Output was processed successfully" }

/-- `_run_checks`: output-existence first (returning early when it fails);
then file size and decodability; dimensions and the input comparison run only
inside `if checks["image_format"]["passed"]:`, the comparison moreover only
when `input_path` is set. -/
def runChecks (env : FsEnv) (s : WorkflowState) : Checks :=
  let c1 := checkOutputExists env s
  if c1.passed then
    match s.output_path with
    | none => { output_exists := c1 }
    | some p =>
        let c2 := checkFileSize env p
        let c3 := checkImageFormat env p
        if c3.passed then
          let c4 := checkDimensions env p
          match s.input_path with
          | some ip =>
              { output_exists := c1, file_size := some c2, image_format := some c3,
                dimensions := some c4, comparison := some (checkComparison env ip p) }
          | none =>
              { output_exists := c1, file_size := some c2, image_format := some c3,
                dimensions := some c4 }
        else { output_exists := c1, file_size := some c2, image_format := some c3 }
  else { output_exists := c1 }

/-- backend/agents/quality_control.py `QualityControlAgent.process`: set
status QUALITY_CHECK and progress 80, run the checks, store them under
"quality_checks"; if all executed checks passed, COMPLETED with progress 100,
else FAILED with the failing check names recorded as an error.  Its own
try-block never raises in this model (all externals are inside the checks,
which catch their own exceptions). -/
def process (env : FsEnv) (s : WorkflowState) : StepOut :=
  let s1 := { s with status := TaskStatus.quality_check, progress := 80 }
  let checks := runChecks env s1
  let s2 := { s1 with intermediate_results := { s1.intermediate_results with
    quality_checks := some checks } }
  if checks.allPassed then
    { state := { s2 with status := TaskStatus.completed, progress := 100 },
      exn := none, pwrites := [80, 100] }
  else
    { state := { s2 with
        status := TaskStatus.failed,
        intermediate_results := appendError s2.intermediate_results
          { agent := "Quality Control",
            error := "Quality check FAILED: " ++ String.intercalate ", " checks.failedNames } },
      exn := none, pwrites := [80] }

end QualityControlAgent

/-- The agent loop of `SimpleOrchestrator.run`: run each agent through
`safe_process` in order; after each, stop as soon as `state.status == FAILED`
and return the partial state.  Also returns the names of the agents invoked
and the concatenated progress writes.  (The orchestrator's own try/except is
unreachable since `safe_process` never raises.) -/
def runAgents : List (String × (WorkflowState → StepOut)) → WorkflowState →
    WorkflowState × List String × List Nat
  | [], s => (s, [], [])
  | (nm, p) :: rest, s =>
      let r := BaseAgent.safe_process nm p s
      if r.state.status = TaskStatus.failed then (r.state, [nm], r.pwrites)
      else
        let t := runAgents rest r.state
        (t.1, nm :: t.2.1, r.pwrites ++ t.2.2)

/-- The agent list built in `SimpleOrchestrator.__init__`: the LLM analyzer
(when `use_llm_analyzer`), then the image worker, then quality control. -/
def SimpleOrchestrator.agents (useLLM : Bool) (envA : AnalyzerEnv) (envW : WorkerEnv)
    (envQ : FsEnv) : List (String × (WorkflowState → StepOut)) :=
  (if useLLM then [("Task Analyzer", TaskAnalyzerAgent.process envA)] else [])
    ++ [("Image Worker", ImageWorkerAgent.process envW),
        ("Quality Control", QualityControlAgent.process envQ)]

/-- backend/agents/orchestrator.py `SimpleOrchestrator.run`. -/
def SimpleOrchestrator.run (useLLM : Bool) (envA : AnalyzerEnv) (envW : WorkerEnv)
    (envQ : FsEnv) (s : WorkflowState) : WorkflowState × List String × List Nat :=
  runAgents (SimpleOrchestrator.agents useLLM envA envW envQ) s

/-- Step 2 of `ConditionalOrchestrator.run`: read
`intermediate_results.get("analysis", {}).get("confidence", 0)` and set
`needs_review` when it is below 0.5. -/
def ConditionalOrchestrator.reviewStep (s : WorkflowState) : WorkflowState :=
  let confidence := (s.intermediate_results.analysis.map Analysis.confidence).getD 0
  if confidence < 50 then
    { s with intermediate_results := { s.intermediate_results with needs_review := some true } }
  else s

/-- backend/agents/orchestrator.py `ConditionalOrchestrator.run`: analyzer;
stop if FAILED; review step; worker; if the worker left FAILED and
`intermediate_results.get("retry_count", 0) < 3`, bump "retry_count", reset
status to PROCESSING and run the worker one more time; stop if still FAILED;
otherwise quality control.  `envW n` is the worker environment of attempt
`n` (0 = first attempt, 1 = the single retry). -/
def ConditionalOrchestrator.run (envA : AnalyzerEnv) (envW : Nat → WorkerEnv)
    (envQ : FsEnv) (s : WorkflowState) : WorkflowState × List String × List Nat :=
  let r1 := BaseAgent.safe_process "Task Analyzer" (TaskAnalyzerAgent.process envA) s
  if r1.state.status = TaskStatus.failed then (r1.state, ["Task Analyzer"], r1.pwrites)
  else
    let s2 := ConditionalOrchestrator.reviewStep r1.state
    let r2 := BaseAgent.safe_process "Image Worker" (ImageWorkerAgent.process (envW 0)) s2
    let after : StepOut × List String :=
      if r2.state.status = TaskStatus.failed then
        let rc := r2.state.intermediate_results.retry_count.getD 0
        if rc < 3 then
          let sR := { r2.state with
            intermediate_results := { r2.state.intermediate_results with
              retry_count := some (rc + 1) },
            status := TaskStatus.processing }
          let r3 := BaseAgent.safe_process "Image Worker" (ImageWorkerAgent.process (envW 1)) sR
          ({ r3 with pwrites := r2.pwrites ++ r3.pwrites }, ["Image Worker", "Image Worker"])
        else (r2, ["Image Worker"])
      else (r2, ["Image Worker"])
    if after.1.state.status = TaskStatus.failed then
      (after.1.state, "Task Analyzer" :: after.2, r1.pwrites ++ after.1.pwrites)
    else
      let r4 := BaseAgent.safe_process "Quality Control"
        (QualityControlAgent.process envQ) after.1.state
      (r4.state, "Task Analyzer" :: after.2 ++ ["Quality Control"],
        r1.pwrites ++ after.1.pwrites ++ r4.pwrites)

/-- The result dict returned by one edit-provider agent call:
`{success, output_ref?, error?}` (`result.get("success")`). -/
structure PResult where
  success : Bool
  output_ref : Option String := none
  error : Option String := none
deriving DecidableEq

/-- The primary invocation failed: it raised, or returned `success=false`. -/
def primaryFailed : Except Exn PResult → Bool
  | Except.error _ => true
  | Except.ok r => !r.success

/-- Whether an `Except` outcome is a returned value (no exception). -/
def isOkB {α : Type} : Except Exn α → Bool
  | Except.ok _ => true
  | Except.error _ => false

/-- backend/agents/edit_manager.py `ImageEditManager.edit_image` (the same
try-primary-then-fallback shape is duplicated in `deblur`, `remove_object`,
`beauty_enhance`, `style_transfer`, `upscale_and_enhance`): inside the
try-block, invoke the primary and return its result if `success`; on an
unsuccessful result, invoke the fallback still inside the try-block and
return whatever it returns — but an exception from that fallback call is
caught by the `except` handler, which invokes the fallback once more and
returns that second outcome (a second exception propagates).  When the
primary itself raises, the handler invokes the fallback once and returns its
outcome (its exception propagates).  `fallback n` is the outcome of the
n-th fallback invocation; the second component counts provider calls. -/
def ImageEditManager.edit_image (primary : Except Exn PResult)
    (fallback : Nat → Except Exn PResult) : Except Exn PResult × Nat :=
  match primary with
  | Except.ok r =>
      if r.success then (Except.ok r, 1)
      else
        match fallback 0 with
        | Except.ok r2 => (Except.ok r2, 2)
        | Except.error _ => (fallback 1, 3)
  | Except.error _ => (fallback 0, 2)

/-- The attribute names a Python `dict` object exposes (its public methods);
`append` is a `list` method and is not among them. -/
def dictMethods : List String :=
  ["clear", "copy", "fromkeys", "get", "items", "keys", "pop", "popitem",
   "setdefault", "update", "values"]

/-- Python attribute lookup on a `dict` value: `some` iff the attribute
exists, otherwise the access raises AttributeError. -/
def pyDictGetAttr (attr : String) : Option Unit :=
  if dictMethods.contains attr then some () else none

/-- backend/core/state.py `WorkflowState.add_intermediate_result`: it calls
`self.intermediate_results.append(...)`, but `intermediate_results` is
declared (line 55) and initialised as a `dict`, so the attribute lookup of
`append` raises AttributeError before anything is mutated. -/
def WorkflowState.add_intermediate_result (s : WorkflowState) (agent : String)
    (result : String) : Except Exn WorkflowState :=
  match pyDictGetAttr "append" with
  | some _ => Except.ok s
  | none =>
      Except.error { ename := "AttributeError", msg := "dict object has no attribute append" }

namespace SimpleTaskAnalyzer

/-- The `self.keywords` dict of `SimpleTaskAnalyzer` (its four keys, in
insertion order DEBLUR, INPAINT, BEAUTY_ENHANCE, GENERATE; UNKNOWN is not a
key and scores over it never happen). -/
def keywords : TaskType → List String
  | TaskType.deblur => ["mờ", "blur", "sắc nét", "sharp", "rõ", "clear", "khử mờ"]
  | TaskType.inpaint => ["xóa", "remove", "delete", "bỏ", "object", "người",
      "background", "nền", "chữ", "text", "watermark"]
  | TaskType.beauty_enhance => ["đẹp", "beauty", "beautify", "da", "skin",
      "khuôn mặt", "face", "portrait", "chỉnh sửa"]
  | TaskType.generate => ["tạo", "generate", "vẽ", "draw", "create", "sinh"]
  | TaskType.unknown => []

/-- The iteration (and hence tie-break) order of the keyword dict. -/
def analyzerOrder : List TaskType :=
  [TaskType.deblur, TaskType.inpaint, TaskType.beauty_enhance, TaskType.generate]

/-- Python `str.lower` (per-character lowering; the agreement with Python's
full Unicode case mapping is exact on ASCII, and none of the properties
proved below depend on the case mapping of any particular character). -/
def pyLower (s : String) : String := ⟨s.data.map Char.toLower⟩

/-- Python `kw in text` (substring containment). -/
def containsSub (kw text : String) : Bool := subList kw.data text.data

/-- `sum(1 for kw in keywords if kw in user_request_lower)`. -/
def score (req : String) (t : TaskType) : Nat :=
  (keywords t).countP (fun kw => containsSub kw (pyLower req))

/-- `max(scores, key=scores.get)`: the first key of the dict (in insertion
order) attaining the maximal score — a later key replaces the current best
only when its score is strictly greater. -/
def maxKey (req : String) : TaskType :=
  let step := fun (b t : TaskType) => if score req b < score req t then t else b
  step (step (step TaskType.deblur TaskType.inpaint) TaskType.beauty_enhance)
    TaskType.generate

/-- Position of a task type in the keyword-dict enumeration order. -/
def prio : TaskType → Nat
  | TaskType.deblur => 0
  | TaskType.inpaint => 1
  | TaskType.beauty_enhance => 2
  | TaskType.generate => 3
  | TaskType.unknown => 4

/-- The dict returned by `SimpleTaskAnalyzer.analyze` ("task_type" is the
enum's `.value` string in the source; the enum member is kept here and
`ttValue` gives the string).  Confidence in hundredths. -/
structure SimpleAnalysis where
  task_type : TaskType
  confidence : Nat
  reasoning : String
  scores : List (TaskType × Nat)
deriving DecidableEq

/-- backend/agents/task_analyzer.py `SimpleTaskAnalyzer.analyze`: score every
task type by keyword matches against the lowercased request, pick the
highest-scoring one (first wins on ties); zero matches force DEBLUR with
confidence exactly 0.5; otherwise confidence is `min(0.6 + 0.1*score, 0.95)`. -/
def analyze (req : String) : SimpleAnalysis :=
  let best0 := maxKey req
  let max_score := score req best0
  let best := if max_score = 0 then TaskType.deblur else best0
  let confidence : Nat :=
    if max_score = 0 then 50
    else if 60 + max_score * 10 ≤ 95 then 60 + max_score * 10 else 95
  { task_type := best,
    confidence := confidence,
    reasoning := "Matched " ++ natStr max_score ++ " keywords for " ++ ttValue best,
    scores := analyzerOrder.map (fun t => (t, score req t)) }

end SimpleTaskAnalyzer

/-- Whether the output-existence gate of the Validator passes: an
`output_path` is set and the file exists. -/
def outputExistsB (env : FsEnv) (s : WorkflowState) : Bool :=
  match s.output_path with
  | none => false
  | some p => env.fileExists p

/-- Whether the decodability (image_format) check on the output passes. -/
def formatOkB (env : FsEnv) (s : WorkflowState) : Bool :=
  match s.output_path with
  | none => false
  | some p => (QualityControlAgent.checkImageFormat env p).passed

/-- Concrete analyzer environment: the LLM classifies the request as a
deblur task with confidence 0.9. -/
def cEnvA : AnalyzerEnv :=
  ⟨Except.ok { task_type := some "deblur", confidence := some 90,
               reasoning := some "looks blurry", suggested_params := some [] }⟩

/-- Concrete worker environment: the input image exists but every provider
call raises (transient provider outage). -/
def cProvFail : WorkerEnv :=
  { fileExists := fun p => p = "in.png",
    deblur_image := fun _ => Except.error ⟨"RuntimeError", "provider down"⟩,
    inpaint_image := fun _ _ => Except.error ⟨"RuntimeError", "provider down"⟩,
    enhance_beauty := fun _ => Except.error ⟨"RuntimeError", "provider down"⟩,
    generate_image := fun _ _ => Except.error ⟨"RuntimeError", "provider down"⟩ }

/-- Concrete worker environment: every provider call succeeds and writes
"out.png". -/
def cProvOk : WorkerEnv :=
  { fileExists := fun _ => true,
    deblur_image := fun _ => Except.ok (some "out.png"),
    inpaint_image := fun _ _ => Except.ok (some "out.png"),
    enhance_beauty := fun _ => Except.ok (some "out.png"),
    generate_image := fun _ _ => Except.ok (some "out.png") }

/-- Per-attempt worker environments: the provider fails on the first two
attempts and would succeed from the third on. -/
def cEnvWFF : Nat → WorkerEnv := fun n => if n ≤ 1 then cProvFail else cProvOk

/-- Per-attempt worker environments: the provider fails on the first attempt
and succeeds from the second (single transient failure). -/
def cEnvWRetryOk : Nat → WorkerEnv := fun n => if n = 0 then cProvFail else cProvOk

/-- Concrete validator environment on which every quality check passes:
both files exist, the output is 5000 bytes, decodes as a 64x64 PNG, and the
output bytes differ from the input bytes. -/
def cEnvQ : FsEnv :=
  { fileExists := fun _ => true,
    fileSize := fun _ => Except.ok 5000,
    openImage := fun _ => Except.ok { format := "PNG", mode := "RGB", width := 64, height := 64 },
    readBytes := fun p => Except.ok (if p = "in.png" then [0] else [1]) }

/-- Concrete validator environment whose output file exists but cannot be
decoded as an image (PIL raises). -/
def cBadImgEnv : FsEnv :=
  { fileExists := fun _ => true,
    fileSize := fun _ => Except.ok 5000,
    openImage := fun _ => Except.error ⟨"UnidentifiedImageError", "cannot identify image file"⟩,
    readBytes := fun _ => Except.ok [0] }

/-- Concrete fresh workflow state: a deblur request over an existing input. -/
def cS1 : WorkflowState :=
  { task_id := "t1", user_request := "deblur it", input_path := some "in.png" }

/-- Concrete state that already carries input and output references. -/
def cS2 : WorkflowState :=
  { task_id := "t2", user_request := "fix it", input_path := some "in.png",
    output_path := some "out.png" }

/-- Stage 1 of a Conditional run: the analyzer through `safe_process`. -/
def condStage1 (envA : AnalyzerEnv) (s : WorkflowState) : StepOut :=
  BaseAgent.safe_process "Task Analyzer" (TaskAnalyzerAgent.process envA) s

/-- Stage 3 of a Conditional run: the first worker attempt (after the
confidence review step) through `safe_process`. -/
def condStage2 (envA : AnalyzerEnv) (envW : Nat → WorkerEnv) (s : WorkflowState) : StepOut :=
  BaseAgent.safe_process "Image Worker" (ImageWorkerAgent.process (envW 0))
    (ConditionalOrchestrator.reviewStep (condStage1 envA s).state)

/-- The `intermediate_results.get("retry_count", 0)` read after a failed
first worker attempt. -/
def condRetryCount (envA : AnalyzerEnv) (envW : Nat → WorkerEnv) (s : WorkflowState) : Nat :=
  (condStage2 envA envW s).state.intermediate_results.retry_count.getD 0

/-- The state prepared for the retry: "retry_count" bumped and status reset
to PROCESSING. -/
def condRetryState (envA : AnalyzerEnv) (envW : Nat → WorkerEnv) (s : WorkflowState) :
    WorkflowState :=
  { (condStage2 envA envW s).state with
    intermediate_results := { (condStage2 envA envW s).state.intermediate_results with
      retry_count := some (condRetryCount envA envW s + 1) },
    status := TaskStatus.processing }

/-- The single retry of the worker through `safe_process`. -/
def condStage3 (envA : AnalyzerEnv) (envW : Nat → WorkerEnv) (s : WorkflowState) : StepOut :=
  BaseAgent.safe_process "Image Worker" (ImageWorkerAgent.process (envW 1))
    (condRetryState envA envW s)

/-- A returned-but-unsuccessful primary result. -/
def cPResFailR : PResult := { success := false, error := some "primary failed" }

/-- A primary-provider outcome: returned but flagged unsuccessful. -/
def cPResFail : Except Exn PResult := Except.ok cPResFailR

/-- A successful primary result. -/
def cPrimOkR : PResult := { success := true, output_ref := some "primary.png" }

/-- A successful fallback result with its own output reference. -/
def cPResOkR : PResult := { success := true, output_ref := some "fb.png" }

/-- A fallback-provider outcome: success with its own output reference. -/
def cPResOk : Except Exn PResult := Except.ok cPResOkR

/-- A fallback result: returned but flagged unsuccessful. -/
def cPResFail2 : PResult := { success := false, error := some "fallback failed" }

/-- The exception a raising primary provider throws. -/
def cExnA : Exn := ⟨"RuntimeError", "primary crashed"⟩

/-- The exception a raising fallback provider throws. -/
def cExnB : Exn := ⟨"RuntimeError", "fallback crashed"⟩

/-- A fallback whose every invocation succeeds. -/
def cFbOk : Nat → Except Exn PResult := fun _ => cPResOk

/-- A fallback whose every invocation returns `success=false`. -/
def cFbFailAlways : Nat → Except Exn PResult := fun _ => Except.ok cPResFail2

/-- A fallback whose every invocation raises. -/
def cFbRaiseAlways : Nat → Except Exn PResult := fun _ => Except.error cExnB

/-- A fallback that raises on its first invocation and returns
`success=false` on the second. -/
def cFbRaiseOnce : Nat → Except Exn PResult :=
  fun n => if n = 0 then Except.error cExnB else Except.ok cPResFail2

end DeepVision

namespace DeepVision

lemma safe_exn_none (nm : String) (p : WorkflowState → StepOut) (s : WorkflowState) :
    (BaseAgent.safe_process nm p s).exn = none := by
  simp only [BaseAgent.safe_process]
  cases h : (p s).exn <;> simp [h]

lemma safe_of_none (nm : String) (p : WorkflowState → StepOut) (s : WorkflowState)
    (h : (p s).exn = none) : BaseAgent.safe_process nm p s = p s := by
  simp only [BaseAgent.safe_process, h]

lemma safe_of_some (nm : String) (p : WorkflowState → StepOut) (s : WorkflowState) (e : Exn)
    (h : (p s).exn = some e) :
    BaseAgent.safe_process nm p s =
      { state := { (p s).state with
          status := TaskStatus.failed,
          intermediate_results := appendError (p s).state.intermediate_results
            { agent := nm, error := e.msg, etype := some e.ename } },
        exn := none,
        pwrites := (p s).pwrites } := by
  simp only [BaseAgent.safe_process, h]

lemma safe_rc (nm : String) (p : WorkflowState → StepOut) (s : WorkflowState) :
    (BaseAgent.safe_process nm p s).state.intermediate_results.retry_count
      = (p s).state.intermediate_results.retry_count := by
  simp only [BaseAgent.safe_process, appendError]
  cases h : (p s).exn <;> simp [h]

lemma analyzer_proc_exn (envA : AnalyzerEnv) (s : WorkflowState) :
    (TaskAnalyzerAgent.process envA s).exn = none := by
  simp only [TaskAnalyzerAgent.process]
  split <;> rfl

lemma analyzer_proc_status (envA : AnalyzerEnv) (s : WorkflowState) :
    (TaskAnalyzerAgent.process envA s).state.status = TaskStatus.analyzing := by
  simp only [TaskAnalyzerAgent.process]
  split <;> rfl

lemma analyzer_proc_pw (envA : AnalyzerEnv) (s : WorkflowState) :
    (TaskAnalyzerAgent.process envA s).pwrites = [10, 20] := by
  simp only [TaskAnalyzerAgent.process]
  split <;> rfl

lemma analyzer_proc_rc (envA : AnalyzerEnv) (s : WorkflowState) :
    (TaskAnalyzerAgent.process envA s).state.intermediate_results.retry_count
      = s.intermediate_results.retry_count := by
  simp only [TaskAnalyzerAgent.process]
  split <;> rfl

lemma analyzer_safe (envA : AnalyzerEnv) (s : WorkflowState) :
    BaseAgent.safe_process "Task Analyzer" (TaskAnalyzerAgent.process envA) s
      = TaskAnalyzerAgent.process envA s :=
  safe_of_none _ _ _ (analyzer_proc_exn envA s)

lemma review_rc (s : WorkflowState) :
    (ConditionalOrchestrator.reviewStep s).intermediate_results.retry_count
      = s.intermediate_results.retry_count := by
  simp only [ConditionalOrchestrator.reviewStep]
  split <;> rfl

lemma worker_rc (env : WorkerEnv) (s : WorkflowState) :
    (ImageWorkerAgent.process env s).state.intermediate_results.retry_count
      = s.intermediate_results.retry_count := by
  simp only [ImageWorkerAgent.process, workerFinish, workerRaise, appendError]
  repeat' split
  all_goals rfl

lemma worker_exn_errors (env : WorkerEnv) (s : WorkflowState) (e : Exn)
    (h : (ImageWorkerAgent.process env s).exn = some e) :
    (ImageWorkerAgent.process env s).state.intermediate_results.errors
        = some (s.intermediate_results.errors.getD []
            ++ [{ agent := "Image Worker", error := e.msg }])
      ∧ (ImageWorkerAgent.process env s).state.status = TaskStatus.failed := by
  revert h
  simp only [ImageWorkerAgent.process, workerFinish, workerRaise, appendError]
  repeat' split
  all_goals intro h
  all_goals (try (cases h))
  all_goals simp_all

lemma worker_none_post (env : WorkerEnv) (s : WorkflowState)
    (h : (ImageWorkerAgent.process env s).exn = none) :
    (ImageWorkerAgent.process env s).state.status = TaskStatus.processing
      ∧ (ImageWorkerAgent.process env s).pwrites = [40, 70] := by
  revert h
  simp only [ImageWorkerAgent.process, workerFinish, workerRaise]
  repeat' split
  all_goals intro h
  all_goals simp_all

lemma worker_some_pw (env : WorkerEnv) (s : WorkflowState) (e : Exn)
    (h : (ImageWorkerAgent.process env s).exn = some e) :
    (ImageWorkerAgent.process env s).pwrites = [40] := by
  revert h
  simp only [ImageWorkerAgent.process, workerFinish, workerRaise]
  repeat' split
  all_goals intro h
  all_goals simp_all

lemma worker_safe_cases (env : WorkerEnv) (s : WorkflowState) :
    ((BaseAgent.safe_process "Image Worker" (ImageWorkerAgent.process env) s).state.status
        = TaskStatus.failed
      ∧ (BaseAgent.safe_process "Image Worker" (ImageWorkerAgent.process env) s).pwrites = [40])
    ∨ ((BaseAgent.safe_process "Image Worker" (ImageWorkerAgent.process env) s).state.status
        = TaskStatus.processing
      ∧ (BaseAgent.safe_process "Image Worker" (ImageWorkerAgent.process env) s).pwrites
          = [40, 70]) := by
  cases hx : (ImageWorkerAgent.process env s).exn with
  | none =>
      right
      rw [safe_of_none _ _ _ hx]
      exact worker_none_post env s hx
  | some e =>
      left
      rw [safe_of_some _ _ _ _ hx]
      exact ⟨rfl, worker_some_pw env s e hx⟩

lemma quality_proc_exn (env : FsEnv) (s : WorkflowState) :
    (QualityControlAgent.process env s).exn = none := by
  simp only [QualityControlAgent.process]
  split <;> rfl

lemma quality_proc_pw (env : FsEnv) (s : WorkflowState) :
    (QualityControlAgent.process env s).pwrites = [80]
      ∨ (QualityControlAgent.process env s).pwrites = [80, 100] := by
  simp only [QualityControlAgent.process]
  split <;> simp

lemma quality_proc_rc (env : FsEnv) (s : WorkflowState) :
    (QualityControlAgent.process env s).state.intermediate_results.retry_count
      = s.intermediate_results.retry_count := by
  simp only [QualityControlAgent.process, appendError]
  split <;> rfl

lemma quality_safe (env : FsEnv) (s : WorkflowState) :
    BaseAgent.safe_process "Quality Control" (QualityControlAgent.process env) s
      = QualityControlAgent.process env s :=
  safe_of_none _ _ _ (quality_proc_exn env s)

lemma runAgents_append (l1 l2 : List (String × (WorkflowState → StepOut))) (s : WorkflowState)
    (h : (runAgents l1 s).1.status ≠ TaskStatus.failed) :
    runAgents (l1 ++ l2) s =
      ((runAgents l2 (runAgents l1 s).1).1,
       (runAgents l1 s).2.1 ++ (runAgents l2 (runAgents l1 s).1).2.1,
       (runAgents l1 s).2.2 ++ (runAgents l2 (runAgents l1 s).1).2.2) := by
  induction l1 generalizing s with
  | nil => simp [runAgents]
  | cons a rest ih =>
      obtain ⟨nm, p⟩ := a
      simp only [runAgents, List.cons_append] at h ⊢
      by_cases hf : (BaseAgent.safe_process nm p s).state.status = TaskStatus.failed
      · simp only [if_pos hf] at h
        exact absurd hf h
      · simp only [if_neg hf] at h ⊢
        simp only [List.append_eq]
        rw [ih _ h]
        simp

lemma runAgents_cons_fail (nm : String) (p : WorkflowState → StepOut)
    (rest : List (String × (WorkflowState → StepOut))) (s : WorkflowState)
    (h : (BaseAgent.safe_process nm p s).state.status = TaskStatus.failed) :
    runAgents ((nm, p) :: rest) s =
      ((BaseAgent.safe_process nm p s).state, [nm], (BaseAgent.safe_process nm p s).pwrites) := by
  simp only [runAgents]
  rw [if_pos h]

lemma runAgents_cons_ok (nm : String) (p : WorkflowState → StepOut)
    (rest : List (String × (WorkflowState → StepOut))) (s : WorkflowState)
    (h : ¬ (BaseAgent.safe_process nm p s).state.status = TaskStatus.failed) :
    runAgents ((nm, p) :: rest) s =
      ((runAgents rest (BaseAgent.safe_process nm p s).state).1,
       nm :: (runAgents rest (BaseAgent.safe_process nm p s).state).2.1,
       (BaseAgent.safe_process nm p s).pwrites
         ++ (runAgents rest (BaseAgent.safe_process nm p s).state).2.2) := by
  simp only [runAgents]
  rw [if_neg h]

lemma sortedLE_cons₂ (a b : Nat) (l : List Nat) (hab : a ≤ b)
    (h : sortedLE (b :: l) = true) : sortedLE (a :: b :: l) = true := by
  simp only [sortedLE, h, Bool.and_true, decide_eq_true_eq]
  exact hab

/-- C4 counterexample: a 2-entry chain whose primary returns an unsuccessful
result and whose fallback raises makes 3 provider calls — the raising
fallback call inside the try-block is caught by the except handler, which
invokes the fallback a second time and returns that second outcome —
refuting "no more than 2 provider calls occur for a 2-entry chain". -/
theorem C4_counterexample :
    primaryFailed cPResFail = true
    ∧ (ImageEditManager.edit_image cPResFail cFbRaiseAlways).2 = 3
    ∧ (ImageEditManager.edit_image cPResFail cFbRaiseAlways).1 = Except.error cExnB :=
  ⟨rfl, rfl, rfl⟩

/-- C4 (amended): a successful primary is returned with exactly 1 provider
call (no fallback); the fallback is invoked (2 or more calls) iff the
primary raised or returned `success=false`; when the primary fails and the
fallback's invocation succeeds, the returned result (hence its output_ref)
is the fallback's and exactly 2 provider calls occur; and in every case at
most 3 provider calls occur for a 2-entry chain (3 only when an
unsuccessful-result primary is followed by a raising fallback, which the
except handler re-invokes). -/
theorem C4_amended (pok : PResult) (p : Except Exn PResult)
    (fb : Nat → Except Exn PResult) (r : PResult)
    (hok : pok.success = true) (hp : primaryFailed p = true)
    (hfb : fb 0 = Except.ok r) (hr : r.success = true) :
    ImageEditManager.edit_image (Except.ok pok) fb = (Except.ok pok, 1)
    ∧ ImageEditManager.edit_image p fb = (Except.ok r, 2)
    ∧ ∀ (q : Except Exn PResult) (g : Nat → Except Exn PResult),
        (ImageEditManager.edit_image q g).2 ≤ 3
        ∧ (2 ≤ (ImageEditManager.edit_image q g).2 ↔ primaryFailed q = true) := by
  refine ⟨?_, ?_, ?_⟩
  · simp [ImageEditManager.edit_image, hok]
  · cases p with
    | error e => simp [ImageEditManager.edit_image, hfb]
    | ok rr =>
        simp only [primaryFailed] at hp
        simp at hp
        simp [ImageEditManager.edit_image, hp, hfb]
  · intro q g
    cases q with
    | error e => simp [ImageEditManager.edit_image, primaryFailed]
    | ok rr =>
        cases hs : rr.success
        · cases hg : g 0 <;>
            simp [ImageEditManager.edit_image, primaryFailed, hs, hg]
        · simp [ImageEditManager.edit_image, primaryFailed, hs]

/-- C4 witness: a successful primary returns itself with 1 call; an
unsuccessful primary with a succeeding fallback returns the fallback's
result with exactly 2 calls; and a concrete 3-call chain still respects the
≤ 3 bound. -/
theorem C4_witness :
    ImageEditManager.edit_image (Except.ok cPrimOkR) cFbOk = (Except.ok cPrimOkR, 1)
    ∧ ImageEditManager.edit_image cPResFail cFbOk = (Except.ok cPResOkR, 2)
    ∧ (ImageEditManager.edit_image cPResFail cFbRaiseAlways).2 ≤ 3 := by
  have h := C4_amended cPrimOkR cPResFail cFbOk cPResOkR rfl (by decide) rfl rfl
  exact ⟨h.1, h.2.1, (h.2.2 cPResFail cFbRaiseAlways).1⟩

/-- C6 (amended): when every provider invocation fails with a returned
`success=false` result, the Selector returns the last invocation's result —
the last provider's error, not an aggregate — whether the primary returned
unsuccessfully or raised.  A raising provider is not treated identically to
a `success=false` one: after an unsuccessful primary result, a raising
fallback is caught and the fallback invoked a second time, the second
invocation's outcome prevailing (3 calls); after a raising primary, a
raising fallback's exception propagates out of the Selector (2 calls, no
error result returned). -/
theorem C6_amended (e1 e2 : Exn) (r1 r2 : PResult)
    (fb fbe : Nat → Except Exn PResult)
    (hr1 : r1.success = false) (hr2 : r2.success = false)
    (hfb : fb 0 = Except.ok r2) (hfbe : fbe 0 = Except.error e2) :
    ImageEditManager.edit_image (Except.ok r1) fb = (Except.ok r2, 2)
    ∧ ImageEditManager.edit_image (Except.error e1) fb = (Except.ok r2, 2)
    ∧ ImageEditManager.edit_image (Except.ok r1) fbe = (fbe 1, 3)
    ∧ ImageEditManager.edit_image (Except.error e1) fbe = (Except.error e2, 2) := by
  refine ⟨?_, ?_, ?_, ?_⟩
  all_goals simp [ImageEditManager.edit_image, hr1, hfb, hfbe]

/-- C6 witness: with a fallback returning `success=false` the Selector
returns the last provider's error after either kind of primary failure; with
a fallback that raises first, the unsuccessful-primary path re-invokes it
(second outcome, 3 calls) while the raising-primary path propagates the
exception (2 calls). -/
theorem C6_witness :
    ImageEditManager.edit_image (Except.ok cPResFailR) cFbFailAlways
        = (Except.ok cPResFail2, 2)
    ∧ ImageEditManager.edit_image (Except.error cExnA) cFbFailAlways
        = (Except.ok cPResFail2, 2)
    ∧ ImageEditManager.edit_image (Except.ok cPResFailR) cFbRaiseOnce = (cFbRaiseOnce 1, 3)
    ∧ ImageEditManager.edit_image (Except.error cExnA) cFbRaiseOnce
        = (Except.error cExnB, 2) :=
  C6_amended cExnA cExnB cPResFailR cPResFail2 cFbFailAlways cFbRaiseOnce rfl rfl rfl rfl

/-- C6 counterexample: with the same unsuccessful primary, a fallback whose
invocations raise leaves the Selector propagating an exception after 3
provider calls (no error result is returned, and the last provider is even
invoked twice), while a fallback returning `success=false` yields a returned
result after 2 calls — so a raising provider is not treated identically to a
`success=false` one for the last provider in the chain, and an all-fail
chain whose fallback raises does not return the last provider's error. -/
theorem C6_counterexample :
    isOkB (ImageEditManager.edit_image cPResFail cFbRaiseAlways).1 = false
    ∧ (ImageEditManager.edit_image cPResFail cFbRaiseAlways).2 = 3
    ∧ isOkB (ImageEditManager.edit_image cPResFail cFbFailAlways).1 = true
    ∧ (ImageEditManager.edit_image cPResFail cFbFailAlways).2 = 2 :=
  ⟨rfl, rfl, rfl, rfl⟩

/-- C9: for every WorkflowState and any arguments, `add_intermediate_result`
raises AttributeError (it calls `.append` on `intermediate_results`, which is
a dict, and dicts have no `append` attribute); the call can never succeed or
mutate the state. -/
theorem C9_theorem (s : WorkflowState) (agent result : String) :
    WorkflowState.add_intermediate_result s agent result
      = Except.error ⟨"AttributeError", "dict object has no attribute append"⟩ := rfl

/-- C5: for every agent `process` and every state, `safe_process` returns a
state and never propagates an exception; when the wrapped `process` raised,
the returned state has status FAILED and one `{agent, error, type}` record
appended to the (ordered) errors list of the state as mutated at raise
time. -/
theorem C5_theorem (nm : String) (proc : WorkflowState → StepOut) (s : WorkflowState) :
    (BaseAgent.safe_process nm proc s).exn = none
    ∧ (∀ e : Exn, (proc s).exn = some e →
        (BaseAgent.safe_process nm proc s).state.status = TaskStatus.failed
        ∧ (BaseAgent.safe_process nm proc s).state.intermediate_results.errors
            = some ((proc s).state.intermediate_results.errors.getD []
                ++ [{ agent := nm, error := e.msg, etype := some e.ename }])) := by
  refine ⟨safe_exn_none nm proc s, ?_⟩
  intro e he
  rw [safe_of_some nm proc s e he]
  exact ⟨rfl, rfl⟩

/-- C5 witness: a concrete raising worker (provider outage) is absorbed by
`safe_process`: no exception escapes and the state comes back FAILED. -/
theorem C5_witness :
    (BaseAgent.safe_process "Image Worker" (ImageWorkerAgent.process cProvFail)
      { cS1 with task_type := TaskType.deblur }).exn = none
    ∧ (BaseAgent.safe_process "Image Worker" (ImageWorkerAgent.process cProvFail)
        { cS1 with task_type := TaskType.deblur }).state.status = TaskStatus.failed := by
  have h := C5_theorem "Image Worker" (ImageWorkerAgent.process cProvFail)
    { cS1 with task_type := TaskType.deblur }
  exact ⟨h.1, (h.2 ⟨"RuntimeError", "provider down"⟩ (by decide)).1⟩

/-- C10: whenever the Executor's `process` raises, the state returned by
`safe_process` carries exactly two new error entries for that single failure
— one appended by the worker's own handler (agent + message, no type) and a
second appended by `safe_process` (agent + message + exception type). -/
theorem C10_theorem (env : WorkerEnv) (s : WorkflowState) (e : Exn)
    (h : (ImageWorkerAgent.process env s).exn = some e) :
    (BaseAgent.safe_process "Image Worker" (ImageWorkerAgent.process env)
        s).state.intermediate_results.errors
      = some (s.intermediate_results.errors.getD []
          ++ [{ agent := "Image Worker", error := e.msg },
              { agent := "Image Worker", error := e.msg, etype := some e.ename }])
    ∧ (BaseAgent.safe_process "Image Worker" (ImageWorkerAgent.process env)
        s).state.status = TaskStatus.failed := by
  obtain ⟨herr, _⟩ := worker_exn_errors env s e h
  rw [safe_of_some _ _ _ _ h]
  refine ⟨?_, rfl⟩
  simp only [appendError, herr]
  simp

/-- C10 witness: a concrete provider failure on a deblur task leaves exactly
the two error records for the one raise. -/
theorem C10_witness :
    (BaseAgent.safe_process "Image Worker" (ImageWorkerAgent.process cProvFail)
        { cS1 with task_type := TaskType.deblur }).state.intermediate_results.errors
      = some [{ agent := "Image Worker", error := "provider down" },
              { agent := "Image Worker", error := "provider down", etype := some "RuntimeError" }]
    ∧ (BaseAgent.safe_process "Image Worker" (ImageWorkerAgent.process cProvFail)
        { cS1 with task_type := TaskType.deblur }).state.status = TaskStatus.failed := by
  have h := C10_theorem cProvFail { cS1 with task_type := TaskType.deblur }
    ⟨"RuntimeError", "provider down"⟩ (by decide)
  exact ⟨h.1, h.2⟩

/-- C3 (sequential short-circuit): in the Sequential orchestrator's agent
loop (`runAgents`, the body of `SimpleOrchestrator.run`), if the stages
before some agent end without failure and that agent's `safe_process` leaves
status FAILED, the run returns that partial state immediately: the invoked
agents are exactly the earlier ones plus the failing one, and no later
stage's process is invoked. -/
theorem C3_theorem (l1 : List (String × (WorkflowState → StepOut))) (nm : String)
    (f : WorkflowState → StepOut) (l2 : List (String × (WorkflowState → StepOut)))
    (s : WorkflowState)
    (h1 : (runAgents l1 s).1.status ≠ TaskStatus.failed)
    (h2 : (BaseAgent.safe_process nm f (runAgents l1 s).1).state.status = TaskStatus.failed) :
    runAgents (l1 ++ (nm, f) :: l2) s =
      ((BaseAgent.safe_process nm f (runAgents l1 s).1).state,
       (runAgents l1 s).2.1 ++ [nm],
       (runAgents l1 s).2.2 ++ (BaseAgent.safe_process nm f (runAgents l1 s).1).pwrites) := by
  rw [runAgents_append l1 ((nm, f) :: l2) s h1]
  rw [runAgents_cons_fail nm f l2 _ h2]

/-- C3 witness: a concrete Sequential run (LLM analyzer, then worker, then
quality control) whose worker fails stops after the worker: the trace is
exactly analyzer + worker, quality control is never invoked, and the partial
state is returned. -/
theorem C3_witness :
    SimpleOrchestrator.run true cEnvA cProvFail cEnvQ cS1 =
      ((BaseAgent.safe_process "Image Worker" (ImageWorkerAgent.process cProvFail)
          (runAgents [("Task Analyzer", TaskAnalyzerAgent.process cEnvA)] cS1).1).state,
       ["Task Analyzer", "Image Worker"],
       [10, 20] ++ [40]) :=
  C3_theorem [("Task Analyzer", TaskAnalyzerAgent.process cEnvA)] "Image Worker"
    (ImageWorkerAgent.process cProvFail)
    [("Quality Control", QualityControlAgent.process cEnvQ)]
    cS1 (by decide) (by decide)

/-- C2 (amended): in the Validator's check battery, the missing-output-file
check short-circuits everything; once the output exists, the file-size and
decodability checks always run (whether or not they pass), but the
dimensions check and the was-actually-transformed comparison run only when
the decodability check passes, the comparison additionally only when
`input_path` is present. -/
theorem C2_amended (env : FsEnv) (s : WorkflowState) :
    (QualityControlAgent.runChecks env s).output_exists.passed = outputExistsB env s
    ∧ (QualityControlAgent.runChecks env s).file_size.isSome = outputExistsB env s
    ∧ (QualityControlAgent.runChecks env s).image_format.isSome = outputExistsB env s
    ∧ (QualityControlAgent.runChecks env s).dimensions.isSome
        = (outputExistsB env s && formatOkB env s)
    ∧ (QualityControlAgent.runChecks env s).comparison.isSome
        = (outputExistsB env s && formatOkB env s && s.input_path.isSome) := by
  cases hop : s.output_path with
  | none =>
      simp [QualityControlAgent.runChecks, QualityControlAgent.checkOutputExists,
        outputExistsB, formatOkB, hop]
  | some p =>
      by_cases hfe : env.fileExists p
      · cases hoi : env.openImage p with
        | ok i =>
            cases hip : s.input_path <;>
              simp [QualityControlAgent.runChecks, QualityControlAgent.checkOutputExists,
                QualityControlAgent.checkImageFormat, outputExistsB, formatOkB, hop, hfe, hoi, hip]
        | error e =>
            simp [QualityControlAgent.runChecks, QualityControlAgent.checkOutputExists,
              QualityControlAgent.checkImageFormat, outputExistsB, formatOkB, hop, hfe, hoi]
      · simp [QualityControlAgent.runChecks, QualityControlAgent.checkOutputExists,
          outputExistsB, formatOkB, hop, hfe]

/-- C2 counterexample: on a state whose output file exists (and whose
input_ref is present) but does not decode as an image, the dimensions check
and the comparison check are never executed — refuting the claim that the
missing-output-file check is the only short-circuit. -/
theorem C2_counterexample :
    (QualityControlAgent.runChecks cBadImgEnv cS2).output_exists.passed = true
    ∧ (QualityControlAgent.runChecks cBadImgEnv cS2).file_size.isSome = true
    ∧ cS2.input_path.isSome = true
    ∧ (QualityControlAgent.runChecks cBadImgEnv cS2).image_format
        = some { passed := false, message := "Invalid image: cannot identify image file" }
    ∧ (QualityControlAgent.runChecks cBadImgEnv cS2).dimensions = none
    ∧ (QualityControlAgent.runChecks cBadImgEnv cS2).comparison = none :=
  ⟨rfl, rfl, rfl, rfl, rfl, rfl⟩

/-- C7 (rule-based classifier selection): for every request, the rule-based
analyzer picks the task type with the highest keyword-match count; on ties
the first type in the keyword-dict enumeration order (DEBLUR, INPAINT,
BEAUTY_ENHANCE, GENERATE) wins; and when zero keywords match, the result is
the default DEBLUR with confidence exactly 0.5 and a reasoning string noting
zero matches. -/
theorem C7_theorem (req : String) :
    ((SimpleTaskAnalyzer.analyze req).task_type = SimpleTaskAnalyzer.maxKey req)
    ∧ (∀ t ∈ SimpleTaskAnalyzer.analyzerOrder,
        SimpleTaskAnalyzer.score req t
          ≤ SimpleTaskAnalyzer.score req (SimpleTaskAnalyzer.maxKey req))
    ∧ (∀ t ∈ SimpleTaskAnalyzer.analyzerOrder,
        SimpleTaskAnalyzer.score req t
            = SimpleTaskAnalyzer.score req (SimpleTaskAnalyzer.maxKey req) →
          SimpleTaskAnalyzer.prio (SimpleTaskAnalyzer.maxKey req) ≤ SimpleTaskAnalyzer.prio t)
    ∧ (SimpleTaskAnalyzer.score req (SimpleTaskAnalyzer.maxKey req) = 0 →
        (SimpleTaskAnalyzer.analyze req).task_type = TaskType.deblur
        ∧ (SimpleTaskAnalyzer.analyze req).confidence = 50
        ∧ (SimpleTaskAnalyzer.analyze req).reasoning = "Matched 0 keywords for deblur") := by
  have hmax : ∀ t ∈ SimpleTaskAnalyzer.analyzerOrder,
      SimpleTaskAnalyzer.score req t
        ≤ SimpleTaskAnalyzer.score req (SimpleTaskAnalyzer.maxKey req) := by
    intro t ht
    fin_cases ht
    all_goals simp only [SimpleTaskAnalyzer.maxKey]
    all_goals split_ifs <;> omega
  have htie : ∀ t ∈ SimpleTaskAnalyzer.analyzerOrder,
      SimpleTaskAnalyzer.score req t
          = SimpleTaskAnalyzer.score req (SimpleTaskAnalyzer.maxKey req) →
        SimpleTaskAnalyzer.prio (SimpleTaskAnalyzer.maxKey req) ≤ SimpleTaskAnalyzer.prio t := by
    intro t ht
    fin_cases ht
    all_goals simp only [SimpleTaskAnalyzer.maxKey]
    all_goals split_ifs
    all_goals intro heq
    all_goals simp only [SimpleTaskAnalyzer.prio]
    all_goals omega
  have htt : (SimpleTaskAnalyzer.analyze req).task_type = SimpleTaskAnalyzer.maxKey req := by
    simp only [SimpleTaskAnalyzer.analyze]
    split_ifs with h0
    · have h1 := hmax TaskType.deblur (by simp [SimpleTaskAnalyzer.analyzerOrder])
      have h2 := hmax TaskType.inpaint (by simp [SimpleTaskAnalyzer.analyzerOrder])
      have h3 := hmax TaskType.beauty_enhance (by simp [SimpleTaskAnalyzer.analyzerOrder])
      have h4 := hmax TaskType.generate (by simp [SimpleTaskAnalyzer.analyzerOrder])
      rw [h0] at h1 h2 h3 h4
      simp only [SimpleTaskAnalyzer.maxKey]
      split_ifs <;> first | rfl | omega
    · rfl
  refine ⟨htt, hmax, htie, ?_⟩
  intro h0
  have hd : SimpleTaskAnalyzer.maxKey req = TaskType.deblur := by
    have h1 := hmax TaskType.deblur (by simp [SimpleTaskAnalyzer.analyzerOrder])
    rw [h0] at h1
    simp only [SimpleTaskAnalyzer.maxKey] at h0 ⊢
    split_ifs at h0 ⊢ <;> first | rfl | omega
  refine ⟨htt.trans hd, ?_, ?_⟩
  · simp [SimpleTaskAnalyzer.analyze, h0]
  · simp [SimpleTaskAnalyzer.analyze, h0, ttValue]
    rfl

/-- C7 witness: the request "blah blah" matches zero keywords and yields the
default DEBLUR with confidence exactly 0.5 and the zero-match reasoning;
also one concrete instance of the maximality property. -/
theorem C7_witness :
    (SimpleTaskAnalyzer.analyze "blah blah").task_type = TaskType.deblur
    ∧ (SimpleTaskAnalyzer.analyze "blah blah").confidence = 50
    ∧ (SimpleTaskAnalyzer.analyze "blah blah").reasoning = "Matched 0 keywords for deblur"
    ∧ SimpleTaskAnalyzer.score "blah blah" TaskType.inpaint
        ≤ SimpleTaskAnalyzer.score "blah blah" (SimpleTaskAnalyzer.maxKey "blah blah") := by
  have h := C7_theorem "blah blah"
  have hz := h.2.2.2 (by decide)
  exact ⟨hz.1, hz.2.1, hz.2.2, h.2.1 TaskType.inpaint (by decide)⟩

lemma sorted_simple_run (useLLM : Bool) (envA : AnalyzerEnv) (envW : WorkerEnv)
    (envQ : FsEnv) (s : WorkflowState) (h : s.progress = 0) :
    sortedLE (s.progress :: (SimpleOrchestrator.run useLLM envA envW envQ s).2.2) = true := by
  rw [h]
  have core : ∀ s' : WorkflowState,
      sortedLE (20 :: (runAgents [("Image Worker", ImageWorkerAgent.process envW),
        ("Quality Control", QualityControlAgent.process envQ)] s').2.2) = true
      ∧ sortedLE (0 :: (runAgents [("Image Worker", ImageWorkerAgent.process envW),
        ("Quality Control", QualityControlAgent.process envQ)] s').2.2) = true := by
    intro s'
    rcases worker_safe_cases envW s' with ⟨hst, hpw⟩ | ⟨hst, hpw⟩
    · rw [runAgents_cons_fail _ _ _ _ hst, hpw]
      exact ⟨rfl, rfl⟩
    · rw [runAgents_cons_ok _ _ _ _ (by rw [hst]; exact fun hc => TaskStatus.noConfusion hc), hpw]
      by_cases hqf : (BaseAgent.safe_process "Quality Control" (QualityControlAgent.process envQ)
          (BaseAgent.safe_process "Image Worker"
            (ImageWorkerAgent.process envW) s').state).state.status = TaskStatus.failed
      · rw [runAgents_cons_fail _ _ _ _ hqf, quality_safe]
        rcases quality_proc_pw envQ
            (BaseAgent.safe_process "Image Worker" (ImageWorkerAgent.process envW) s').state
          with hq | hq
        all_goals rw [hq]
        · exact ⟨rfl, rfl⟩
        · exact ⟨rfl, rfl⟩
      · rw [runAgents_cons_ok _ _ _ _ hqf, quality_safe]
        rcases quality_proc_pw envQ
            (BaseAgent.safe_process "Image Worker" (ImageWorkerAgent.process envW) s').state
          with hq | hq
        all_goals rw [hq]
        · exact ⟨rfl, rfl⟩
        · exact ⟨rfl, rfl⟩
  simp only [SimpleOrchestrator.run, SimpleOrchestrator.agents]
  cases useLLM with
  | false =>
      rw [if_neg Bool.false_ne_true, List.nil_append]
      exact (core s).2
  | true =>
      rw [if_pos rfl, List.singleton_append]
      rw [runAgents_cons_ok _ _ _ _
        (by rw [analyzer_safe, analyzer_proc_status]; exact fun hc => TaskStatus.noConfusion hc)]
      rw [analyzer_safe, analyzer_proc_pw]
      rw [List.cons_append, List.cons_append, List.nil_append]
      exact sortedLE_cons₂ 0 10 _ (by omega)
        (sortedLE_cons₂ 10 20 _ (by omega) (core (TaskAnalyzerAgent.process envA s).state).1)

lemma sorted_cond_run (envA : AnalyzerEnv) (envWs : Nat → WorkerEnv)
    (envQ : FsEnv) (s : WorkflowState) (h : s.progress = 0) :
    sortedLE (s.progress :: (ConditionalOrchestrator.run envA envWs envQ s).2.2) = true := by
  rw [h]
  simp only [ConditionalOrchestrator.run]
  rw [if_neg (by rw [analyzer_safe, analyzer_proc_status]; exact fun hc => TaskStatus.noConfusion hc)]
  rw [analyzer_safe, analyzer_proc_pw]
  set sW : WorkflowState := ConditionalOrchestrator.reviewStep
    (TaskAnalyzerAgent.process envA s).state with hsW
  rcases worker_safe_cases (envWs 0) sW with ⟨hst, hpw⟩ | ⟨hst, hpw⟩
  · rw [if_pos hst]
    by_cases hrc : (BaseAgent.safe_process "Image Worker" (ImageWorkerAgent.process (envWs 0))
        sW).state.intermediate_results.retry_count.getD 0 < 3
    · rw [if_pos hrc]
      set sR : WorkflowState := { (BaseAgent.safe_process "Image Worker"
          (ImageWorkerAgent.process (envWs 0)) sW).state with
        intermediate_results := { (BaseAgent.safe_process "Image Worker"
            (ImageWorkerAgent.process (envWs 0)) sW).state.intermediate_results with
          retry_count := some ((BaseAgent.safe_process "Image Worker"
            (ImageWorkerAgent.process (envWs 0))
              sW).state.intermediate_results.retry_count.getD 0 + 1) },
        status := TaskStatus.processing } with hsR
      rcases worker_safe_cases (envWs 1) sR with ⟨hst2, hpw2⟩ | ⟨hst2, hpw2⟩
      · rw [if_pos hst2, hpw, hpw2]
        rfl
      · rw [if_neg (by rw [hst2]; exact fun hc => TaskStatus.noConfusion hc), hpw, hpw2]
        rcases quality_proc_pw envQ (BaseAgent.safe_process "Image Worker"
            (ImageWorkerAgent.process (envWs 1)) sR).state with hq | hq
        all_goals rw [quality_safe, hq]
        · rfl
        · rfl
    · rw [if_neg hrc, if_pos hst, hpw]
      rfl
  · have hno : ¬ (BaseAgent.safe_process "Image Worker" (ImageWorkerAgent.process (envWs 0))
        sW).state.status = TaskStatus.failed := by
      rw [hst]; exact fun hc => TaskStatus.noConfusion hc
    rw [if_neg hno]
    dsimp only []
    rw [if_neg hno]
    rcases quality_proc_pw envQ (BaseAgent.safe_process "Image Worker"
        (ImageWorkerAgent.process (envWs 0)) sW).state with hq | hq
    all_goals rw [quality_safe, hq, hpw]
    · rfl
    · rfl

/-- C8 (progress monotonicity): for every fresh state (progress 0), every
environment and either orchestrator — any stage outcome, including the
Conditional retry path — the sequence of values assigned to `progress`
during the run is monotonically non-decreasing (starting from the initial
progress). -/
theorem C8_theorem (useLLM : Bool) (envA : AnalyzerEnv) (envW : WorkerEnv)
    (envWs : Nat → WorkerEnv) (envQ : FsEnv) (s : WorkflowState) (h : s.progress = 0) :
    sortedLE (s.progress :: (SimpleOrchestrator.run useLLM envA envW envQ s).2.2) = true
    ∧ sortedLE (s.progress :: (ConditionalOrchestrator.run envA envWs envQ s).2.2) = true :=
  ⟨sorted_simple_run useLLM envA envW envQ s h, sorted_cond_run envA envWs envQ s h⟩

/-- C8 witness: a concrete fully-successful Sequential run and a concrete
Conditional run with one worker retry both have non-decreasing progress
traces. -/
theorem C8_witness :
    sortedLE (cS1.progress :: (SimpleOrchestrator.run true cEnvA cProvOk cEnvQ cS1).2.2) = true
    ∧ sortedLE (cS1.progress
        :: (ConditionalOrchestrator.run cEnvA cEnvWRetryOk cEnvQ cS1).2.2) = true :=
  C8_theorem true cEnvA cProvOk cEnvWRetryOk cEnvQ cS1 rfl

/-- C1 counterexample: with a fresh state and a provider that fails on the
first two attempts and would succeed from the third, the Conditional run
ends FAILED after a single retry (stored retry_count 1; the worker was
invoked exactly twice) — although the Executor "fails transiently then
succeeds within max_retries" (a third invocation on the final state would
succeed), refuting "retried up to max_retries (default 3) times" and the
predicted COMPLETED outcome. -/
theorem C1_counterexample :
    (ConditionalOrchestrator.run cEnvA cEnvWFF cEnvQ cS1).1.status = TaskStatus.failed
    ∧ (ConditionalOrchestrator.run cEnvA cEnvWFF cEnvQ cS1).1.intermediate_results.retry_count
        = some 1
    ∧ (ConditionalOrchestrator.run cEnvA cEnvWFF cEnvQ cS1).2.1
        = ["Task Analyzer", "Image Worker", "Image Worker"]
    ∧ (ImageWorkerAgent.process (cEnvWFF 2)
        (ConditionalOrchestrator.run cEnvA cEnvWFF cEnvQ cS1).1).exn = none := by
  decide

/-- C1 (amended): on Executor failure the Conditional orchestrator retries
at most once: when the first worker attempt leaves FAILED and the stored
retry_count is below 3, it bumps "retry_count", resets status to PROCESSING
(the code's EXECUTING), re-invokes the worker a single time, and — when that
retry succeeds — proceeds straight to the Validator; the run's agent
sequence is exactly analyzer, worker, worker, quality control, and the final
state's retry_count equals the previous count plus one (so 1 when the
Executor failed exactly once before succeeding). -/
theorem C1_amended (envA : AnalyzerEnv) (envW : Nat → WorkerEnv) (envQ : FsEnv)
    (s : WorkflowState)
    (h1 : (condStage1 envA s).state.status ≠ TaskStatus.failed)
    (h2 : (condStage2 envA envW s).state.status = TaskStatus.failed)
    (h3 : condRetryCount envA envW s < 3)
    (h4 : (condStage3 envA envW s).state.status ≠ TaskStatus.failed) :
    ConditionalOrchestrator.run envA envW envQ s =
      ((BaseAgent.safe_process "Quality Control" (QualityControlAgent.process envQ)
          (condStage3 envA envW s).state).state,
       ["Task Analyzer", "Image Worker", "Image Worker", "Quality Control"],
       (condStage1 envA s).pwrites ++ ((condStage2 envA envW s).pwrites
         ++ (condStage3 envA envW s).pwrites)
         ++ (BaseAgent.safe_process "Quality Control" (QualityControlAgent.process envQ)
              (condStage3 envA envW s).state).pwrites)
    ∧ (ConditionalOrchestrator.run envA envW envQ s).1.intermediate_results.retry_count
        = some (condRetryCount envA envW s + 1) := by
  have heq : ConditionalOrchestrator.run envA envW envQ s =
      ((BaseAgent.safe_process "Quality Control" (QualityControlAgent.process envQ)
          (condStage3 envA envW s).state).state,
       ["Task Analyzer", "Image Worker", "Image Worker", "Quality Control"],
       (condStage1 envA s).pwrites ++ ((condStage2 envA envW s).pwrites
         ++ (condStage3 envA envW s).pwrites)
         ++ (BaseAgent.safe_process "Quality Control" (QualityControlAgent.process envQ)
              (condStage3 envA envW s).state).pwrites) := by
    simp only [condStage1, condStage2, condRetryCount, condRetryState, condStage3] at h1 h2 h3 h4 ⊢
    simp only [ConditionalOrchestrator.run]
    rw [if_neg h1, if_pos h2, if_pos h3]
    dsimp only []
    rw [if_neg h4]
    rfl
  refine ⟨heq, ?_⟩
  rw [heq]
  dsimp only []
  rw [safe_rc, quality_proc_rc]
  simp only [condStage3]
  rw [safe_rc, worker_rc]
  simp only [condRetryState]

/-- C1 witness: analyzer succeeds, the worker fails once (provider outage)
and succeeds on the single retry, validation passes: the run invokes
analyzer, worker, worker, quality control, ends COMPLETED, and the final
retry_count is exactly 1 (one failed attempt before success). -/
theorem C1_witness :
    (ConditionalOrchestrator.run cEnvA cEnvWRetryOk cEnvQ cS1 =
      ((BaseAgent.safe_process "Quality Control" (QualityControlAgent.process cEnvQ)
          (condStage3 cEnvA cEnvWRetryOk cS1).state).state,
       ["Task Analyzer", "Image Worker", "Image Worker", "Quality Control"],
       (condStage1 cEnvA cS1).pwrites ++ ((condStage2 cEnvA cEnvWRetryOk cS1).pwrites
         ++ (condStage3 cEnvA cEnvWRetryOk cS1).pwrites)
         ++ (BaseAgent.safe_process "Quality Control" (QualityControlAgent.process cEnvQ)
              (condStage3 cEnvA cEnvWRetryOk cS1).state).pwrites))
    ∧ (ConditionalOrchestrator.run cEnvA cEnvWRetryOk cEnvQ cS1).1.intermediate_results.retry_count
        = some 1
    ∧ (ConditionalOrchestrator.run cEnvA cEnvWRetryOk cEnvQ cS1).1.status
        = TaskStatus.completed := by
  have h := C1_amended cEnvA cEnvWRetryOk cEnvQ cS1 (by decide) (by decide) (by decide) (by decide)
  exact ⟨h.1, h.2, by decide⟩

end DeepVision
